import Mathlib

/-!
Shallow embedding of `src/analytics/carbon_calculator.py` from the
Supply Chain Carbon Analytics Platform.

Python floats are modelled as rationals (ℚ); `round(x, n)` is modelled as
round-half-up to `n` decimal places (Python uses round-half-to-even, but no
value appearing in the theorems below sits on a tie, so the two conventions
agree on everything proved here).  Python exceptions (`ValueError` from the
explicit validation, `ZeroDivisionError` from `1.0 / load_factor`) are
modelled with `Except String`.
-/

/-- `round(x, 6)` — round to six decimal places. -/
def round6 (x : ℚ) : ℚ := (round (x * 1000000) : ℤ) / 1000000

/-- `round(x, 4)` — round to four decimal places. -/
def round4 (x : ℚ) : ℚ := (round (x * 10000) : ℤ) / 10000

/-- EPA emission factors (class `EmissionFactors`), with its default values. -/
structure EmissionFactors where
  air_freight : ℚ := 102/100
  ground_freight : ℚ := 89/1000
  sea_freight : ℚ := 14/1000
  air_freight_ch4 : ℚ := 1/10000
  ground_freight_ch4 : ℚ := 2/10000
  sea_freight_ch4 : ℚ := 5/100000
  air_freight_n2o : ℚ := 1/100000
  ground_freight_n2o : ℚ := 2/100000
  sea_freight_n2o : ℚ := 5/1000000
  ch4_gwp : ℚ := 25
  n2o_gwp : ℚ := 298
deriving DecidableEq, Repr

/-- The calculator always uses the default factors (`EmissionFactors()`). -/
def emission_factors : EmissionFactors := {}

/-- Dataclass `WeatherImpact`, all factors defaulting to `1.0`. -/
structure WeatherImpact where
  temperature_factor : ℚ := 1
  wind_factor : ℚ := 1
  precipitation_factor : ℚ := 1
  humidity_factor : ℚ := 1
deriving DecidableEq, Repr

/-- `WeatherImpact.calculate_combined_factor`: product of the four factors. -/
def WeatherImpact.calculate_combined_factor (w : WeatherImpact) : ℚ :=
  w.temperature_factor * w.wind_factor * w.precipitation_factor * w.humidity_factor

/-- `CarbonCalculator._get_co2_factor`: dict lookup with default `0.0`. -/
def get_co2_factor (transport_mode : String) : ℚ :=
  if transport_mode = "air" then emission_factors.air_freight
  else if transport_mode = "ground" then emission_factors.ground_freight
  else if transport_mode = "sea" then emission_factors.sea_freight
  else 0

/-- `CarbonCalculator._get_ch4_factor`: dict lookup with default `0.0`. -/
def get_ch4_factor (transport_mode : String) : ℚ :=
  if transport_mode = "air" then emission_factors.air_freight_ch4
  else if transport_mode = "ground" then emission_factors.ground_freight_ch4
  else if transport_mode = "sea" then emission_factors.sea_freight_ch4
  else 0

/-- `CarbonCalculator._get_n2o_factor`: dict lookup with default `0.0`. -/
def get_n2o_factor (transport_mode : String) : ℚ :=
  if transport_mode = "air" then emission_factors.air_freight_n2o
  else if transport_mode = "ground" then emission_factors.ground_freight_n2o
  else if transport_mode = "sea" then emission_factors.sea_freight_n2o
  else 0

/-- Lines 114–116 of the source: `weather_factor = 1.0`, overwritten with the
combined factor when a `WeatherImpact` is supplied (a dataclass instance is
always truthy in Python, so `if weather_impact:` tests only for `None`). -/
def weather_factor_of : Option WeatherImpact → ℚ
  | none => 1
  | some w => w.calculate_combined_factor

/-- The dictionary returned by `calculate_transport_emissions`. -/
structure TransportEmissions where
  co2_kg : ℚ
  ch4_kg : ℚ
  n2o_kg : ℚ
  co2_equivalent_kg : ℚ
  weather_factor : ℚ
  operational_factor : ℚ
deriving DecidableEq, Repr

/-- `CarbonCalculator.calculate_transport_emissions`.  The two explicit
`ValueError` validations come first; `load_factor = 0` models the Python
`ZeroDivisionError` raised by `1.0 / load_factor` (in ℚ division by zero
would silently yield 0, which Python does not do). -/
def calculate_transport_emissions
    (distance_km weight_kg : ℚ) (transport_mode : String)
    (weather_impact : Option WeatherImpact := none)
    (load_factor : ℚ := 8/10) (fuel_efficiency : ℚ := 1) :
    Except String TransportEmissions :=
  if distance_km ≤ 0 ∨ weight_kg ≤ 0 then
    .error "Distance and weight must be positive"
  else if transport_mode ≠ "air" ∧ transport_mode ≠ "ground" ∧ transport_mode ≠ "sea" then
    .error "Transport mode must be air, ground, or sea"
  else if load_factor = 0 then
    .error "float division by zero"
  else
    let co2_factor := get_co2_factor transport_mode
    let ch4_factor := get_ch4_factor transport_mode
    let n2o_factor := get_n2o_factor transport_mode
    let weight_tons := weight_kg / 1000
    let base_co2 := co2_factor * weight_tons * distance_km
    let base_ch4 := ch4_factor * weight_tons * distance_km
    let base_n2o := n2o_factor * weight_tons * distance_km
    let operational_factor := (1 / load_factor) * fuel_efficiency
    let weather_factor := weather_factor_of weather_impact
    let co2_kg := base_co2 * operational_factor * weather_factor
    let ch4_kg := base_ch4 * operational_factor * weather_factor
    let n2o_kg := base_n2o * operational_factor * weather_factor
    let co2_equivalent_kg :=
      co2_kg + ch4_kg * emission_factors.ch4_gwp + n2o_kg * emission_factors.n2o_gwp
    .ok {
      co2_kg := round6 co2_kg
      ch4_kg := round6 ch4_kg
      n2o_kg := round6 n2o_kg
      co2_equivalent_kg := round6 co2_equivalent_kg
      weather_factor := round4 weather_factor
      operational_factor := round4 operational_factor }

/-- `CarbonCalculator._calculate_temperature_factor`.  Note the dict-lookup
default multiplier is `0.02`, the same value as the `air` entry. -/
def calculate_temperature_factor (temperature_celsius : ℚ) (transport_mode : String) : ℚ :=
  let optimal_min : ℚ := 15
  let optimal_max : ℚ := 25
  if optimal_min ≤ temperature_celsius ∧ temperature_celsius ≤ optimal_max then 1
  else
    let deviation :=
      if temperature_celsius < optimal_min then optimal_min - temperature_celsius
      else temperature_celsius - optimal_max
    let impact_multiplier : ℚ :=
      if transport_mode = "air" then 2/100
      else if transport_mode = "ground" then 3/100
      else if transport_mode = "sea" then 1/100
      else 2/100
    max (8/10) (min (12/10) (1 + deviation * impact_multiplier))

/-- `CarbonCalculator._calculate_wind_factor`.  `wind_direction_degrees` is an
argument of the Python function but is never read in its body. -/
def calculate_wind_factor (wind_speed_kmh : ℚ) (wind_direction_degrees : ℚ)
    (transport_mode : String) : ℚ :=
  if transport_mode = "air" then
    if 50 < wind_speed_kmh then 115/100
    else if 25 < wind_speed_kmh then 108/100
    else 1
  else if transport_mode = "ground" then
    if 40 < wind_speed_kmh then 105/100
    else 1
  else 1

/-- `CarbonCalculator._calculate_precipitation_factor`. -/
def calculate_precipitation_factor (precipitation_mm : ℚ) (transport_mode : String) : ℚ :=
  if transport_mode = "ground" then
    if 10 < precipitation_mm then 112/100
    else if 5 < precipitation_mm then 106/100
    else 1
  else if transport_mode = "air" then
    if 5 < precipitation_mm then 105/100
    else 1
  else 1

/-- `CarbonCalculator._calculate_humidity_factor` (mode-independent). -/
def calculate_humidity_factor (humidity_percent : ℚ) (transport_mode : String) : ℚ :=
  if 80 < humidity_percent then 102/100
  else if 60 < humidity_percent then 101/100
  else 1

/-- `CarbonCalculator.calculate_weather_impact`.  The Python body cannot raise
(every sub-factor is total), so the `except` fallback to a neutral
`WeatherImpact()` is dead code and the embedding is total. -/
def calculate_weather_impact
    (temperature_celsius wind_speed_kmh wind_direction_degrees
     precipitation_mm humidity_percent : ℚ) (transport_mode : String) : WeatherImpact :=
  { temperature_factor := calculate_temperature_factor temperature_celsius transport_mode
    wind_factor := calculate_wind_factor wind_speed_kmh wind_direction_degrees transport_mode
    precipitation_factor := calculate_precipitation_factor precipitation_mm transport_mode
    humidity_factor := calculate_humidity_factor humidity_percent transport_mode }

/-- A shipment dictionary as consumed by `calculate_supply_chain_emissions`;
the `.get` defaults of the Python loop become field defaults. -/
structure Shipment where
  distance_km : ℚ
  weight_kg : ℚ
  transport_mode : String
  weather_impact : Option WeatherImpact := none
  load_factor : ℚ := 8/10
  fuel_efficiency : ℚ := 1
deriving DecidableEq, Repr

/-- The dictionary returned by `calculate_supply_chain_emissions`. -/
structure SupplyChainEmissions where
  total_co2_kg : ℚ
  total_ch4_kg : ℚ
  total_n2o_kg : ℚ
  total_co2_equivalent_kg : ℚ
  scope_3_emissions_kg : ℚ
  shipment_count : ℕ
deriving DecidableEq, Repr

/-- The accumulation loop of `calculate_supply_chain_emissions`: running totals
`(co2, ch4, n2o, co2e)` over the shipments, propagating any exception. -/
def sumShipmentEmissions (shipments : List Shipment) : Except String (ℚ × ℚ × ℚ × ℚ) :=
  shipments.foldlM
    (fun acc s => do
      let e ← calculate_transport_emissions s.distance_km s.weight_kg s.transport_mode
        s.weather_impact s.load_factor s.fuel_efficiency
      pure (acc.1 + e.co2_kg, acc.2.1 + e.ch4_kg, acc.2.2.1 + e.n2o_kg,
        acc.2.2.2 + e.co2_equivalent_kg))
    (0, 0, 0, 0)

/-- `CarbonCalculator._calculate_scope_3_emissions`: packaging `0.1 kg/kg`
plus warehousing `0.05 kg/kg/day × 2 days`, summed over the shipments. -/
def calculate_scope_3_emissions (shipments : List Shipment) : ℚ :=
  shipments.foldl
    (fun acc s => acc + (s.weight_kg * (1/10) + s.weight_kg * (5/100) * 2)) 0

/-- `CarbonCalculator.calculate_supply_chain_emissions`.  An exception from
any shipment propagates (the Python `try` re-raises); `scope_3_emissions`
stays `0.0` unless `include_scope_3` is set, and is then also added into the
CO2-equivalent total (adding `0` in the other case is the identity). -/
def calculate_supply_chain_emissions (shipments : List Shipment)
    (include_scope_3 : Bool := true) : Except String SupplyChainEmissions :=
  match sumShipmentEmissions shipments with
  | .error e => .error e
  | .ok (total_co2, total_ch4, total_n2o, total_co2e) =>
    let scope_3_emissions : ℚ :=
      if include_scope_3 then calculate_scope_3_emissions shipments else 0
    .ok {
      total_co2_kg := round6 total_co2
      total_ch4_kg := round6 total_ch4
      total_n2o_kg := round6 total_n2o
      total_co2_equivalent_kg := round6 (total_co2e + scope_3_emissions)
      scope_3_emissions_kg := round6 scope_3_emissions
      shipment_count := shipments.length }

/-- C1: the concrete ground-mode scenario — distance 1000 km, weight 1000 kg,
load factor 0.8, fuel efficiency 1.0, no weather — returns co2 = 111.25,
ch4 = 0.25, n2o = 0.025, co2e = 124.95, weather factor 1.0, operational
factor 1.25. -/
theorem c1_concrete_ground_scenario :
    calculate_transport_emissions 1000 1000 "ground" none (8/10) 1 =
      .ok { co2_kg := 445/4, ch4_kg := 1/4, n2o_kg := 1/40,
            co2_equivalent_kg := 2499/20, weather_factor := 1,
            operational_factor := 5/4 } := by
  with_unfolding_all rfl

theorem transport_ok_elim (d w : ℚ) (m : String) (wi : Option WeatherImpact) (l f : ℚ)
    (r : TransportEmissions)
    (h : calculate_transport_emissions d w m wi l f = .ok r) :
    0 < d ∧ 0 < w ∧ (m = "air" ∨ m = "ground" ∨ m = "sea") ∧ l ≠ 0 ∧
    r = { co2_kg := round6 (get_co2_factor m * (w / 1000) * d * (1 / l * f) * weather_factor_of wi),
          ch4_kg := round6 (get_ch4_factor m * (w / 1000) * d * (1 / l * f) * weather_factor_of wi),
          n2o_kg := round6 (get_n2o_factor m * (w / 1000) * d * (1 / l * f) * weather_factor_of wi),
          co2_equivalent_kg := round6
            (get_co2_factor m * (w / 1000) * d * (1 / l * f) * weather_factor_of wi
              + get_ch4_factor m * (w / 1000) * d * (1 / l * f) * weather_factor_of wi * 25
              + get_n2o_factor m * (w / 1000) * d * (1 / l * f) * weather_factor_of wi * 298),
          weather_factor := round4 (weather_factor_of wi),
          operational_factor := round4 (1 / l * f) } := by
  unfold calculate_transport_emissions at h
  split_ifs at h with h1 h2 h3
  · simp only [Except.ok.injEq] at h
    subst h
    push_neg at h1
    have hm : m = "air" ∨ m = "ground" ∨ m = "sea" := by tauto
    exact ⟨h1.1, h1.2, hm, h3, rfl⟩

theorem abs_round6_sub_le (x : ℚ) : |round6 x - x| ≤ 1/2000000 := by
  have h := abs_sub_round (x * 1000000)
  rw [abs_sub_comm] at h
  have hx : round6 x - x = ((round (x * 1000000) : ℚ) - x * 1000000) / 1000000 := by
    rw [round6]; ring
  rw [hx, abs_div, abs_of_pos (by norm_num : (0:ℚ) < 1000000)]
  linarith

theorem round6_nonneg (x : ℚ) (hx : 0 ≤ x) : 0 ≤ round6 x := by
  rw [round6]
  apply div_nonneg _ (by norm_num : (0:ℚ) ≤ 1000000)
  have h0 : (0:ℤ) ≤ round (x * 1000000) := by
    rw [round_eq]
    exact Int.floor_nonneg.mpr (by linarith)
  exact_mod_cast h0

theorem round6_gwp_bound (x y z : ℚ) :
    |round6 (x + y * 25 + z * 298) - (round6 x + round6 y * 25 + round6 z * 298)| ≤ 13/80000 := by
  have hs := abs_round6_sub_le (x + y * 25 + z * 298)
  have hx := abs_round6_sub_le x
  have hy := abs_round6_sub_le y
  have hz := abs_round6_sub_le z
  rw [abs_le] at hs hx hy hz ⊢
  constructor <;> linarith [hs.1, hs.2, hx.1, hx.2, hy.1, hy.2, hz.1, hz.2]

theorem get_co2_factor_nonneg (m : String) : 0 ≤ get_co2_factor m := by
  unfold get_co2_factor; split_ifs <;> norm_num [emission_factors]

theorem get_ch4_factor_nonneg (m : String) : 0 ≤ get_ch4_factor m := by
  unfold get_ch4_factor; split_ifs <;> norm_num [emission_factors]

theorem get_n2o_factor_nonneg (m : String) : 0 ≤ get_n2o_factor m := by
  unfold get_n2o_factor; split_ifs <;> norm_num [emission_factors]

/-- C2: any call with non-positive distance, non-positive weight, or an
unrecognized transport mode returns an error and no result, for every value
of the remaining parameters. -/
theorem c2_invalid_inputs_error (d w : ℚ) (m : String) (wi : Option WeatherImpact) (l f : ℚ)
    (h : d ≤ 0 ∨ w ≤ 0 ∨ (m ≠ "air" ∧ m ≠ "ground" ∧ m ≠ "sea")) :
    ∃ e, calculate_transport_emissions d w m wi l f = .error e := by
  unfold calculate_transport_emissions
  rcases h with h | h | h
  · rw [if_pos (Or.inl h)]; exact ⟨_, rfl⟩
  · rw [if_pos (Or.inr h)]; exact ⟨_, rfl⟩
  · by_cases h0 : d ≤ 0 ∨ w ≤ 0
    · rw [if_pos h0]; exact ⟨_, rfl⟩
    · rw [if_neg h0, if_pos h]; exact ⟨_, rfl⟩

theorem c2_invalid_inputs_error_witness :
    ∃ e, calculate_transport_emissions 0 1 "ground" none (8/10) 1 = .error e :=
  c2_invalid_inputs_error 0 1 "ground" none (8/10) 1 (Or.inl (by norm_num))

/-- C3 counterexample: at distance 1 km, weight 10 kg, ground mode, load
factor 1, fuel efficiency 1, the returned fields violate the GWP identity by
0.00006, far more than the claimed 1e-6 tolerance (the 6-decimal rounding of
n2o_kg drops 2e-7 kg, which the 298× GWP amplifies). -/
theorem c3_counterexample_rounding_gap :
    calculate_transport_emissions 1 10 "ground" none 1 1 =
      .ok { co2_kg := 89/100000, ch4_kg := 1/500000, n2o_kg := 0,
            co2_equivalent_kg := 1/1000, weather_factor := 1, operational_factor := 1 } ∧
    ¬ |(1/1000 : ℚ) - (89/100000 + (1/500000) * 25 + 0 * 298)| ≤ 1/1000000 := by
  refine ⟨by with_unfolding_all rfl, by rw [abs_le]; intro hc; norm_num at hc⟩

/-- C3 (amended): for every returned result, co2_equivalent_kg equals
co2_kg + ch4_kg × 25 + n2o_kg × 298 to within 1.625e-4 (= 13/80000, the worst
case of rounding each field to 6 decimals, amplified by the GWP weights); the
identity is exact before rounding but not within 1e-6 after it. -/
theorem c3_amended_gwp_identity (d w : ℚ) (m : String) (wi : Option WeatherImpact) (l f : ℚ)
    (r : TransportEmissions)
    (h : calculate_transport_emissions d w m wi l f = .ok r) :
    |r.co2_equivalent_kg - (r.co2_kg + r.ch4_kg * 25 + r.n2o_kg * 298)| ≤ 13/80000 := by
  obtain ⟨-, -, -, -, hr⟩ := transport_ok_elim d w m wi l f r h
  subst hr
  exact round6_gwp_bound _ _ _

theorem c3_amended_gwp_identity_witness :
    |(2499/20 : ℚ) - (445/4 + (1/4) * 25 + (1/40) * 298)| ≤ 13/80000 := by
  have h := c3_amended_gwp_identity 1000 1000 "ground" none (8/10) 1
    { co2_kg := 445/4, ch4_kg := 1/4, n2o_kg := 1/40, co2_equivalent_kg := 2499/20,
      weather_factor := 1, operational_factor := 5/4 } (by with_unfolding_all rfl)
  exact h

/-- C4 counterexample: with a negative load factor (left unconstrained by the
claim), the operational factor is negative and all four returned mass fields
are negative. -/
theorem c4_counterexample_negative_load_factor :
    calculate_transport_emissions 1000 1000 "ground" none (-1) 1 =
      .ok { co2_kg := -89, ch4_kg := -1/5, n2o_kg := -1/50, co2_equivalent_kg := -2499/25,
            weather_factor := 1, operational_factor := -1 } ∧
    ((-89 : ℚ) < 0) :=
  ⟨by with_unfolding_all rfl, by norm_num⟩

/-- C4 (amended): for valid inputs (positive distance and weight, a recognized
mode) and additionally a positive load factor, a non-negative fuel-efficiency
multiplier and a non-negative combined weather factor, all four returned mass
fields are ≥ 0. -/
theorem c4_amended_mass_fields_nonneg (d w : ℚ) (m : String) (wi : Option WeatherImpact)
    (l f : ℚ) (r : TransportEmissions)
    (hl : 0 < l) (hf : 0 ≤ f) (hwi : 0 ≤ weather_factor_of wi)
    (h : calculate_transport_emissions d w m wi l f = .ok r) :
    0 ≤ r.co2_kg ∧ 0 ≤ r.ch4_kg ∧ 0 ≤ r.n2o_kg ∧ 0 ≤ r.co2_equivalent_kg := by
  obtain ⟨hd, hw, -, -, hr⟩ := transport_ok_elim d w m wi l f r h
  subst hr
  have hop : 0 ≤ 1 / l * f := mul_nonneg (by positivity) hf
  have hwt : 0 ≤ w / 1000 := by positivity
  have hx : 0 ≤ get_co2_factor m * (w / 1000) * d * (1 / l * f) * weather_factor_of wi :=
    mul_nonneg (mul_nonneg (mul_nonneg (mul_nonneg (get_co2_factor_nonneg m) hwt) hd.le) hop) hwi
  have hy : 0 ≤ get_ch4_factor m * (w / 1000) * d * (1 / l * f) * weather_factor_of wi :=
    mul_nonneg (mul_nonneg (mul_nonneg (mul_nonneg (get_ch4_factor_nonneg m) hwt) hd.le) hop) hwi
  have hz : 0 ≤ get_n2o_factor m * (w / 1000) * d * (1 / l * f) * weather_factor_of wi :=
    mul_nonneg (mul_nonneg (mul_nonneg (mul_nonneg (get_n2o_factor_nonneg m) hwt) hd.le) hop) hwi
  exact ⟨round6_nonneg _ hx, round6_nonneg _ hy, round6_nonneg _ hz,
    round6_nonneg _ (by nlinarith)⟩

theorem c4_amended_mass_fields_nonneg_witness :
    0 ≤ (445/4 : ℚ) ∧ 0 ≤ (1/4 : ℚ) ∧ 0 ≤ (1/40 : ℚ) ∧ 0 ≤ (2499/20 : ℚ) :=
  c4_amended_mass_fields_nonneg 1000 1000 "ground" none (8/10) 1
    { co2_kg := 445/4, ch4_kg := 1/4, n2o_kg := 1/40, co2_equivalent_kg := 2499/20,
      weather_factor := 1, operational_factor := 5/4 }
    (by norm_num) (by norm_num) (by norm_num [weather_factor_of])
    (by with_unfolding_all rfl)

/-- C5: enabling scope-3 leaves the per-gas totals and the shipment count
unchanged; the false call reports scope-3 as 0; the true call reports scope-3
as the (rounded) packaging-plus-warehousing sum and adds that sum into the
CO2-equivalent total before its final rounding. -/
theorem c5_scope3_isolation (s : List Shipment) (r1 r2 : SupplyChainEmissions)
    (h1 : calculate_supply_chain_emissions s true = .ok r1)
    (h2 : calculate_supply_chain_emissions s false = .ok r2) :
    r1.total_co2_kg = r2.total_co2_kg ∧ r1.total_ch4_kg = r2.total_ch4_kg ∧
    r1.total_n2o_kg = r2.total_n2o_kg ∧ r1.shipment_count = r2.shipment_count ∧
    r2.scope_3_emissions_kg = 0 ∧
    r1.scope_3_emissions_kg = round6 (calculate_scope_3_emissions s) ∧
    ∃ t : ℚ × ℚ × ℚ × ℚ, sumShipmentEmissions s = .ok t ∧
      r1.total_co2_equivalent_kg = round6 (t.2.2.2 + calculate_scope_3_emissions s) ∧
      r2.total_co2_equivalent_kg = round6 t.2.2.2 := by
  cases hs : sumShipmentEmissions s with
  | error e =>
    rw [calculate_supply_chain_emissions, hs] at h1
    exact absurd h1 (by simp)
  | ok t =>
    obtain ⟨a, b, c, q⟩ := t
    rw [calculate_supply_chain_emissions, hs] at h1 h2
    simp only [if_pos rfl, Except.ok.injEq] at h1
    simp only [Bool.false_eq_true, if_false, Except.ok.injEq] at h2
    subst h1
    subst h2
    refine ⟨rfl, rfl, rfl, rfl, ?_, rfl, (a, b, c, q), rfl, rfl, by rw [add_zero]⟩
    show round6 0 = 0
    simp [round6]

theorem c5_scope3_isolation_witness :
    (445/4 : ℚ) = 445/4 ∧ (1/4 : ℚ) = 1/4 ∧ (1/40 : ℚ) = 1/40 ∧ (1 : ℕ) = 1 ∧
    (0 : ℚ) = 0 ∧
    (200 : ℚ) = round6 (calculate_scope_3_emissions
      [(⟨1000, 1000, "ground", none, 8/10, 1⟩ : Shipment)]) ∧
    ∃ t : ℚ × ℚ × ℚ × ℚ,
      sumShipmentEmissions [(⟨1000, 1000, "ground", none, 8/10, 1⟩ : Shipment)] = .ok t ∧
      (6499/20 : ℚ) = round6 (t.2.2.2 + calculate_scope_3_emissions
        [(⟨1000, 1000, "ground", none, 8/10, 1⟩ : Shipment)]) ∧
      (2499/20 : ℚ) = round6 t.2.2.2 := by
  have h := c5_scope3_isolation [(⟨1000, 1000, "ground", none, 8/10, 1⟩ : Shipment)]
    (⟨445/4, 1/4, 1/40, 6499/20, 200, 1⟩ : SupplyChainEmissions)
    (⟨445/4, 1/4, 1/40, 2499/20, 0, 1⟩ : SupplyChainEmissions)
    (by with_unfolding_all rfl) (by with_unfolding_all rfl)
  exact h

/-- C6: omitting the weather impact gives exactly the same call as supplying a
neutral `WeatherImpact()` (all four factors 1.0), and any successful
no-weather result reports weather_factor = 1.0. -/
theorem c6_weather_default_neutral (d w : ℚ) (m : String) (l f : ℚ) :
    calculate_transport_emissions d w m none l f =
      calculate_transport_emissions d w m (some {}) l f ∧
    ∀ r, calculate_transport_emissions d w m none l f = .ok r → r.weather_factor = 1 := by
  constructor
  · unfold calculate_transport_emissions
    split_ifs <;>
      simp [weather_factor_of, WeatherImpact.calculate_combined_factor]
  · intro r hr
    obtain ⟨-, -, -, -, hr⟩ := transport_ok_elim d w m none l f r hr
    subst hr
    show round4 (weather_factor_of none) = 1
    with_unfolding_all rfl

theorem c6_weather_default_neutral_witness :
    (calculate_transport_emissions 1000 1000 "ground" none (8/10) 1 =
      calculate_transport_emissions 1000 1000 "ground" (some {}) (8/10) 1) ∧
    ({ co2_kg := 445/4, ch4_kg := 1/4, n2o_kg := 1/40, co2_equivalent_kg := 2499/20,
       weather_factor := 1, operational_factor := 5/4 } : TransportEmissions).weather_factor
      = 1 :=
  ⟨(c6_weather_default_neutral 1000 1000 "ground" (8/10) 1).1,
   (c6_weather_default_neutral 1000 1000 "ground" (8/10) 1).2
     { co2_kg := 445/4, ch4_kg := 1/4, n2o_kg := 1/40, co2_equivalent_kg := 2499/20,
       weather_factor := 1, operational_factor := 5/4 }
     (by with_unfolding_all rfl)⟩

/-- C7 counterexample: at 5 °C the temperature sub-factor for the unrecognized
mode "train" is 1.2 (it falls into the dict default 0.02, the "air"
multiplier), while "sea" gives 1.1; consequently the full weather impact for
"train" differs from the one for "sea". -/
theorem c7_counterexample_temperature_default :
    calculate_temperature_factor 5 "train" = 12/10 ∧
    calculate_temperature_factor 5 "sea" = 11/10 ∧
    calculate_weather_impact 5 0 0 0 0 "train" ≠ calculate_weather_impact 5 0 0 0 0 "sea" := by
  refine ⟨by with_unfolding_all rfl, by with_unfolding_all rfl, ?_⟩
  intro heq
  have h1 : (calculate_weather_impact 5 0 0 0 0 "train").temperature_factor = 12/10 := by
    with_unfolding_all rfl
  have h2 : (calculate_weather_impact 5 0 0 0 0 "sea").temperature_factor = 11/10 := by
    with_unfolding_all rfl
  rw [heq, h2] at h1
  norm_num at h1

/-- C7 (amended): for any unrecognized transport mode, the wind, precipitation
and humidity sub-factors equal their "sea" values, but the temperature
sub-factor equals its "air" value (the dict default multiplier is 0.02, not
the sea value 0.01), so calculate_weather_impact agrees with "sea" only when
the temperature factor happens to coincide. -/
theorem c7_amended_unknown_mode_subfactors (m : String)
    (hm : m ≠ "air" ∧ m ≠ "ground" ∧ m ≠ "sea") (t ws wd p h : ℚ) :
    calculate_temperature_factor t m = calculate_temperature_factor t "air" ∧
    calculate_wind_factor ws wd m = calculate_wind_factor ws wd "sea" ∧
    calculate_precipitation_factor p m = calculate_precipitation_factor p "sea" ∧
    calculate_humidity_factor h m = calculate_humidity_factor h "sea" := by
  obtain ⟨h1, h2, h3⟩ := hm
  refine ⟨?_, ?_, ?_, rfl⟩
  · unfold calculate_temperature_factor
    simp [h1, h2, h3]
  · unfold calculate_wind_factor
    simp [h1, h2]
  · unfold calculate_precipitation_factor
    simp [h1, h2]

theorem c7_amended_unknown_mode_subfactors_witness :
    calculate_temperature_factor 5 "train" = calculate_temperature_factor 5 "air" ∧
    calculate_wind_factor 60 0 "train" = calculate_wind_factor 60 0 "sea" ∧
    calculate_precipitation_factor 12 "train" = calculate_precipitation_factor 12 "sea" ∧
    calculate_humidity_factor 90 "train" = calculate_humidity_factor 90 "sea" :=
  c7_amended_unknown_mode_subfactors "train" (by refine ⟨?_, ?_, ?_⟩ <;> simp) 5 60 0 12 90

/-- C8: calculate_weather_impact is invariant under changes of
wind_direction_degrees alone — the argument is accepted but never used. -/
theorem c8_wind_direction_unused (t ws wd1 wd2 p h : ℚ) (m : String) :
    calculate_weather_impact t ws wd1 p h m = calculate_weather_impact t ws wd2 p h m := rfl

/-- C9: in ground mode, the precipitation factor is 1.12 exactly for
precipitation strictly above 10 mm, and at exactly 10 mm the factor is 1.06
(the 10 mm comparison is exclusive, and 10 falls into the >5 branch). -/
theorem c9_ground_precipitation_boundary :
    (∀ p : ℚ, calculate_precipitation_factor p "ground" = 112/100 ↔ 10 < p) ∧
    calculate_precipitation_factor 10 "ground" = 106/100 := by
  constructor
  · intro p
    unfold calculate_precipitation_factor
    rw [if_pos rfl]
    split_ifs with h1 h2
    · exact iff_of_true rfl h1
    · exact iff_of_false (by norm_num) h1
    · exact iff_of_false (by norm_num) h1
  · with_unfolding_all rfl

/-- C10: the empty shipment batch raises no error and returns all-zero totals
and a shipment count of 0, with scope-3 enabled or disabled. -/
theorem c10_empty_batch_zero :
    calculate_supply_chain_emissions [] true =
      .ok { total_co2_kg := 0, total_ch4_kg := 0, total_n2o_kg := 0,
            total_co2_equivalent_kg := 0, scope_3_emissions_kg := 0, shipment_count := 0 } ∧
    calculate_supply_chain_emissions [] false =
      .ok { total_co2_kg := 0, total_ch4_kg := 0, total_n2o_kg := 0,
            total_co2_equivalent_kg := 0, scope_3_emissions_kg := 0, shipment_count := 0 } :=
  ⟨by with_unfolding_all rfl, by with_unfolding_all rfl⟩
